import Mathlib

/-!
Shallow embedding of the Frame Sync and Performance Tracker of
ESP_8_BIT_GFX (src/ESP_8_BIT_GFX.cpp).

All tracker fields are 32-bit unsigned integers in the source; they are
modelled as natural numbers together with explicit reduction modulo 2^32
at the operations where C unsigned arithmetic can wrap.  The hardware
cycle-counter reads (xthal_get_ccount) and the buffer provider's
cumulative counters are external inputs; they enter the model as explicit
parameters of the functions that read them.  The blocking provider wait
inside waitForFrame only affects provider state, so waitForFrame is
decomposed into the straight-line code before the blocking call
(waitForFramePre) and after it (waitForFramePost).  The memcpy loop is
modelled by the list of copy operations it issues, each recorded as
(destination pointer, source pointer, byte count), with the row-pointer
tables as abstract pointer maps.
-/

/-- Modulus of 32-bit unsigned arithmetic. -/
def M : Nat := 4294967296

/-- C uint32 addition. -/
def add32 (a b : Nat) : Nat := (a + b) % M

/-- C uint32 subtraction (correct for a, b < M). -/
def sub32 (a b : Nat) : Nat := (a + M - b) % M

/-- Tracker state: the session fields of ESP_8_BIT_GFX.
perfStart, perfEnd bound the session in cycle-counter readings;
waitTally accumulates cycles spent waiting; frameStart and swapStart
snapshot the provider's cumulative counters at session start;
copyAfterSwap is the copy-after-swap flag. -/
structure GFX where
  perfStart : Nat
  perfEnd : Nat
  waitTally : Nat
  frameStart : Nat
  swapStart : Nat
  copyAfterSwap : Bool
deriving Repr, DecidableEq

/-- State constructed by ESP_8_BIT_GFX::ESP_8_BIT_GFX: copyAfterSwap is
false and perfStart, perfEnd, waitTally are zero.  The constructor leaves
frameStart and swapStart uninitialized; they are taken as parameters. -/
def initGFX (f s : Nat) : GFX :=
  { perfStart := 0, perfEnd := 0, waitTally := 0
    frameStart := f, swapStart := s, copyAfterSwap := false }

/-- ESP_8_BIT_GFX::getWaitFraction (lines 171-177):
if (perfEnd > perfStart + 10000) return waitTally / ((perfEnd - perfStart) / 10000)
else return 10000, in uint32 arithmetic. -/
def getWaitFraction (s : GFX) : Nat :=
  if add32 s.perfStart 10000 < s.perfEnd then
    s.waitTally / (sub32 s.perfEnd s.perfStart / 10000)
  else
    10000

/-- Branch structure of the validity checks in ESP_8_BIT_GFX::perfData
(lines 95-107): true exactly when one of the two error-logging branches
is taken (perfEnd < perfStart, or duration = perfEnd - perfStart is less
than waitTally). -/
def perfDataLogsError (s : GFX) : Bool :=
  if s.perfEnd < s.perfStart then
    true
  else
    if s.perfEnd - s.perfStart < s.waitTally then true else false

/-- ESP_8_BIT_GFX::perfData (lines 92-114): computes the fraction via
getWaitFraction, then resets perfStart, perfEnd and waitTally to zero and
returns the fraction.  The logging in between reads state but mutates
nothing; its branch structure is captured by perfDataLogsError. -/
def perfData (s : GFX) : Nat × GFX :=
  (getWaitFraction s,
   { s with perfStart := 0, perfEnd := 0, waitTally := 0 })

/-- One memcpy operation issued by the copy-after-swap loop:
(destination pointer, source pointer, number of bytes). -/
abbrev CopyOp : Type := Nat × Nat × Nat

/-- The copy-after-swap block of ESP_8_BIT_GFX::waitForFrame
(lines 141-149): when the flag is set, for chunk = 0..14 issue
memcpy(newLineArray[chunk * 16], oldLineArray[chunk * 16], 256 * 16);
when the flag is clear, issue nothing. -/
def copyChunks (copyAfterSwap : Bool) (oldLineArray newLineArray : Nat → Nat) :
    List CopyOp :=
  if copyAfterSwap then
    (List.range 15).map
      (fun chunk => (newLineArray (chunk * 16), oldLineArray (chunk * 16), 256 * 16))
  else
    []

/-- ESP_8_BIT_GFX::waitForFrame before the blocking provider wait
(lines 122-136): waitStart is the cycle-counter read, frameCount and
swapCount are the provider's cumulative counters read when a session
opens.  If waitStart < perfEnd the counter overflowed since last call and
perfData concludes the session; then if waitTally = 0 a new session opens
with perfStart = waitStart and fresh provider snapshots. -/
def waitForFramePre (s : GFX) (waitStart frameCount swapCount : Nat) : GFX :=
  let s1 := if waitStart < s.perfEnd then (perfData s).2 else s
  if s1.waitTally = 0 then
    { s1 with perfStart := waitStart, frameStart := frameCount, swapStart := swapCount }
  else
    s1

/-- ESP_8_BIT_GFX::waitForFrame after the blocking provider wait
(lines 152-162): waitEnd is the second cycle-counter read.  If
waitEnd < waitStart the counter overflowed during the wait, so perfEnd is
forced to waitStart and perfData closes the session; otherwise
waitEnd - waitStart is added to waitTally and perfEnd becomes waitEnd. -/
def waitForFramePost (s : GFX) (waitStart waitEnd : Nat) : GFX :=
  if waitEnd < waitStart then
    (perfData { s with perfEnd := waitStart }).2
  else
    { s with waitTally := (s.waitTally + (waitEnd - waitStart)) % M,
             perfEnd := waitEnd }

/-- ESP_8_BIT_GFX::waitForFrame (lines 120-163) in full: the state
update composed from the pre- and post-wait phases, paired with the list
of memcpy operations issued between them.  oldLineArray is the
row-pointer table read at entry, newLineArray the one read after the
swap. -/
def waitForFrame (s : GFX) (waitStart waitEnd frameCount swapCount : Nat)
    (oldLineArray newLineArray : Nat → Nat) : GFX × List CopyOp :=
  (waitForFramePost (waitForFramePre s waitStart frameCount swapCount) waitStart waitEnd,
   copyChunks s.copyAfterSwap oldLineArray newLineArray)

/-- ESP_8_BIT_GFX::newPerformanceTrackingSession (lines 188-190):
return perfData(). -/
def newPerformanceTrackingSession (s : GFX) : Nat × GFX :=
  perfData s

/-- Claim C1: for every session state where 0 <= waitTally <= elapsed and
elapsed = perfEnd - perfStart > 10000, perfData returns
waitTally / (elapsed / 10000) with integer (floor) division, and this is
the value returned before the session state is reset. -/
theorem perfData_returns_wait_formula (s : GFX) (hE : s.perfEnd < M)
    (hS : s.perfStart ≤ s.perfEnd) (hgt : 10000 < s.perfEnd - s.perfStart)
    (hT : s.waitTally ≤ s.perfEnd - s.perfStart) :
    (perfData s).1 = s.waitTally / ((s.perfEnd - s.perfStart) / 10000) := by
  have hM : M = 4294967296 := rfl
  have hg : add32 s.perfStart 10000 < s.perfEnd := by
    simp only [add32, M]; omega
  have hsub : sub32 s.perfEnd s.perfStart = s.perfEnd - s.perfStart := by
    simp only [sub32, M]; omega
  show getWaitFraction s = _
  unfold getWaitFraction
  rw [if_pos hg, hsub]

/-- Witness for perfData_returns_wait_formula at the spec's concrete
scenario perfStart = 0, waitTally = 30000, perfEnd = 100000. -/
theorem perfData_returns_wait_formula_witness :
    (perfData ⟨0, 100000, 30000, 0, 0, false⟩).1 = 3000 :=
  (perfData_returns_wait_formula ⟨0, 100000, 30000, 0, 0, false⟩
    (by decide) (by decide) (by decide) (by decide)).trans (by decide)

/-- Claim C2 counterexample: at perfStart = 0, perfEnd = 19999,
waitTally = 19999 the hypothesis waitTally <= perfEnd - perfStart holds,
yet perfData returns 19999, which is outside [0, 10000]. -/
theorem perfData_range_counterexample :
    (19999 : Nat) ≤ sub32 19999 0 ∧
    (perfData ⟨0, 19999, 19999, 0, 0, false⟩).1 = 19999 ∧
    ¬ (perfData ⟨0, 19999, 19999, 0, 0, false⟩).1 ≤ 10000 := by decide

/-- Claim C2 as amended: for every session state with all fields below
2^32, perfStart + 10000 < 2^32 (so the guard's addition does not wrap and
the division branch's divisor is at least 1), and waitTally at most the
uint32 difference perfEnd - perfStart, the value returned by perfData
lies in [0, 19999] (not [0, 10000]: the floor division of the divisor
inflates the quotient by up to a factor of two). -/
theorem perfData_le_19999 (s : GFX) (hS : s.perfStart < M) (hE : s.perfEnd < M)
    (hnw : s.perfStart + 10000 < M)
    (hT : s.waitTally ≤ sub32 s.perfEnd s.perfStart) :
    (perfData s).1 ≤ 19999 := by
  have hM : M = 4294967296 := rfl
  show getWaitFraction s ≤ 19999
  unfold getWaitFraction
  by_cases hg : add32 s.perfStart 10000 < s.perfEnd
  · rw [if_pos hg]
    have hd : 0 < sub32 s.perfEnd s.perfStart / 10000 := by
      simp only [add32, sub32, M] at hg ⊢
      omega
    have h1 : s.waitTally / (sub32 s.perfEnd s.perfStart / 10000) ≤
        sub32 s.perfEnd s.perfStart / (sub32 s.perfEnd s.perfStart / 10000) :=
      Nat.div_le_div_right hT
    have h2 : sub32 s.perfEnd s.perfStart /
        (sub32 s.perfEnd s.perfStart / 10000) < 20000 := by
      rw [Nat.div_lt_iff_lt_mul hd]
      omega
    omega
  · rw [if_neg hg]
    omega

/-- Witness for perfData_le_19999 at the all-zero state. -/
theorem perfData_le_19999_witness :
    (perfData ⟨0, 0, 0, 0, 0, false⟩).1 ≤ 19999 :=
  perfData_le_19999 ⟨0, 0, 0, 0, 0, false⟩ (by decide) (by decide) (by decide)
    (by decide)

/-- Claim C3 counterexample: at perfStart = perfEnd = 2^32 - 1 and
waitTally = 0 the claim's hypotheses hold (perfEnd >= perfStart and
elapsed = 0 <= 10000), yet the guard perfEnd > perfStart + 10000 passes
because the addition wraps modulo 2^32, the divisor is zero, and perfData
returns 0 rather than 10000 (in the C source this is a division by
zero). -/
theorem perfData_short_session_counterexample :
    (M : Nat) - 1 ≤ M - 1 ∧ ((M : Nat) - 1) - (M - 1) ≤ 10000 ∧
    add32 (M - 1) 10000 < M - 1 ∧
    sub32 (M - 1) (M - 1) / 10000 = 0 ∧
    (perfData ⟨M - 1, M - 1, 0, 0, 0, false⟩).1 = 0 ∧
    ¬ (perfData ⟨M - 1, M - 1, 0, 0, 0, false⟩).1 = 10000 := by decide

/-- Claim C3 as amended: for every session state where perfEnd >= perfStart,
elapsed = perfEnd - perfStart <= 10000, and additionally
perfStart + 10000 < 2^32 (so the guard's addition does not wrap; this
includes the empty state perfStart = perfEnd = waitTally = 0), perfData
returns exactly 10000. -/
theorem perfData_short_session_10000 (s : GFX)
    (hS : s.perfStart ≤ s.perfEnd) (hle : s.perfEnd - s.perfStart ≤ 10000)
    (hnw : s.perfStart + 10000 < M) :
    (perfData s).1 = 10000 := by
  have hM : M = 4294967296 := rfl
  have hg : ¬ add32 s.perfStart 10000 < s.perfEnd := by
    simp only [add32, M]; omega
  show getWaitFraction s = 10000
  unfold getWaitFraction
  rw [if_neg hg]

/-- Witness for perfData_short_session_10000 at the empty state. -/
theorem perfData_short_session_10000_witness :
    (perfData ⟨0, 0, 0, 0, 0, false⟩).1 = 10000 :=
  perfData_short_session_10000 ⟨0, 0, 0, 0, 0, false⟩
    (by decide) (by decide) (by decide)

/-- Claim C6 counterexample: perfData does not reset the session-start
snapshots: starting from frameStart = 5 and swapStart = 7, both survive
the call unchanged instead of being zeroed. -/
theorem perfData_snapshot_counterexample :
    (perfData ⟨1, 2, 3, 5, 7, false⟩).2.frameStart = 5 ∧
    (perfData ⟨1, 2, 3, 5, 7, false⟩).2.swapStart = 7 ∧
    ¬ (perfData ⟨1, 2, 3, 5, 7, false⟩).2.frameStart = 0 := by decide

/-- Claim C6 as amended: every call to perfData, on every path, ends with
perfStart, perfEnd and waitTally reset to zero; frameStart and swapStart
are left untouched, but a subsequent waitForFrame call treats the state
as a session start (waitTally = 0 is the sentinel) and overwrites
perfStart, frameStart and swapStart with fresh values before the wait. -/
theorem perfData_resets_session (s : GFX) (ws fc sc : Nat) :
    (perfData s).2.perfStart = 0 ∧ (perfData s).2.perfEnd = 0 ∧
    (perfData s).2.waitTally = 0 ∧
    (perfData s).2.frameStart = s.frameStart ∧
    (perfData s).2.swapStart = s.swapStart ∧
    waitForFramePre (perfData s).2 ws fc sc =
      { (perfData s).2 with perfStart := ws, frameStart := fc, swapStart := sc } := by
  refine ⟨rfl, rfl, rfl, rfl, rfl, ?_⟩
  unfold waitForFramePre
  simp [perfData]

/-- Claim C8: newPerformanceTrackingSession is perfData: same returned
fraction and same fully reset final state. -/
theorem newSession_eq_perfData (s : GFX) :
    newPerformanceTrackingSession s = perfData s ∧
    (newPerformanceTrackingSession s).1 = getWaitFraction s ∧
    (newPerformanceTrackingSession s).2.perfStart = 0 ∧
    (newPerformanceTrackingSession s).2.perfEnd = 0 ∧
    (newPerformanceTrackingSession s).2.waitTally = 0 :=
  ⟨rfl, rfl, rfl, rfl, rfl⟩

/-- Claim C4: in every execution of waitForFrame whose post-wait counter
read waitEnd is below the pre-wait read waitStart, nothing is added to
waitTally, perfEnd is forced to waitStart, and the session is closed by
perfData, leaving perfStart = perfEnd = waitTally = 0. -/
theorem waitForFrame_wrap_during_wait (s : GFX) (ws we fc sc : Nat)
    (ol nl : Nat → Nat) (h : we < ws) :
    (waitForFrame s ws we fc sc ol nl).1 =
      (perfData { waitForFramePre s ws fc sc with perfEnd := ws }).2 ∧
    { waitForFramePre s ws fc sc with perfEnd := ws }.waitTally =
      (waitForFramePre s ws fc sc).waitTally ∧
    (waitForFrame s ws we fc sc ol nl).1.perfStart = 0 ∧
    (waitForFrame s ws we fc sc ol nl).1.perfEnd = 0 ∧
    (waitForFrame s ws we fc sc ol nl).1.waitTally = 0 := by
  have h1 : (waitForFrame s ws we fc sc ol nl).1 =
      (perfData { waitForFramePre s ws fc sc with perfEnd := ws }).2 := by
    show waitForFramePost (waitForFramePre s ws fc sc) ws we = _
    unfold waitForFramePost
    rw [if_pos h]
  exact ⟨h1, rfl, by rw [h1]; rfl, by rw [h1]; rfl, by rw [h1]; rfl⟩

/-- Witness for waitForFrame_wrap_during_wait: a wait that starts at
counter value 100 and ends at counter value 5. -/
theorem waitForFrame_wrap_during_wait_witness :
    (5 : Nat) < 100 ∧
    (waitForFrame ⟨0, 0, 0, 0, 0, false⟩ 100 5 1 2 id id).1.perfStart = 0 ∧
    (waitForFrame ⟨0, 0, 0, 0, 0, false⟩ 100 5 1 2 id id).1.perfEnd = 0 ∧
    (waitForFrame ⟨0, 0, 0, 0, 0, false⟩ 100 5 1 2 id id).1.waitTally = 0 := by
  have h := waitForFrame_wrap_during_wait ⟨0, 0, 0, 0, 0, false⟩ 100 5 1 2 id id
    (by decide)
  exact ⟨by decide, h.2.2.1, h.2.2.2.1, h.2.2.2.2⟩

/-- Claim C5: when a waitForFrame call starts with a counter read
waitStart below the stored perfEnd, the stale session is first closed by
perfData; since waitTally is zero afterwards, a fresh session is opened
before the blocking wait, with perfStart = waitStart and frameStart,
swapStart snapshotted from the provider's counters. -/
theorem waitForFrame_stale_session (s : GFX) (ws fc sc : Nat)
    (h : ws < s.perfEnd) :
    (perfData s).2.waitTally = 0 ∧
    waitForFramePre s ws fc sc =
      { (perfData s).2 with perfStart := ws, frameStart := fc, swapStart := sc } := by
  refine ⟨rfl, ?_⟩
  unfold waitForFramePre
  simp [perfData, h]

/-- Witness for waitForFrame_stale_session: perfEnd = 50 stored, new
counter read 10. -/
theorem waitForFrame_stale_session_witness :
    (perfData ⟨20, 50, 3, 1, 2, false⟩).2.waitTally = 0 ∧
    waitForFramePre ⟨20, 50, 3, 1, 2, false⟩ 10 8 9 =
      { (perfData ⟨20, 50, 3, 1, 2, false⟩).2 with
          perfStart := 10, frameStart := 8, swapStart := 9 } :=
  waitForFrame_stale_session ⟨20, 50, 3, 1, 2, false⟩ 10 8 9 (by decide)

/-- Claim C7: with the copy-after-swap flag set, waitForFrame issues
exactly the 15 chunk copies, chunk i moving 16 rows x 256 bytes = 4096
bytes from the old row-pointer table entry 16i to the new entry 16i,
61440 bytes in total; with the flag clear it issues no copy at all. -/
theorem waitForFrame_copy_chunks (s : GFX) (ws we fc sc : Nat)
    (ol nl : Nat → Nat) :
    (waitForFrame s ws we fc sc ol nl).2 =
      (if s.copyAfterSwap then
        [(nl 0, ol 0, 4096), (nl 16, ol 16, 4096), (nl 32, ol 32, 4096),
         (nl 48, ol 48, 4096), (nl 64, ol 64, 4096), (nl 80, ol 80, 4096),
         (nl 96, ol 96, 4096), (nl 112, ol 112, 4096), (nl 128, ol 128, 4096),
         (nl 144, ol 144, 4096), (nl 160, ol 160, 4096), (nl 176, ol 176, 4096),
         (nl 192, ol 192, 4096), (nl 208, ol 208, 4096), (nl 224, ol 224, 4096)]
       else []) ∧
    (copyChunks true ol nl).length = 15 ∧
    ((copyChunks true ol nl).map (fun op => op.2.2)).sum = 61440 ∧
    copyChunks false ol nl = [] := by
  refine ⟨?_, rfl, ?_, rfl⟩
  · show copyChunks s.copyAfterSwap ol nl = _
    cases hc : s.copyAfterSwap
    · rfl
    · simp [copyChunks, List.range_succ]
  · have h : (copyChunks true ol nl).map (fun op => op.2.2) =
        [4096, 4096, 4096, 4096, 4096, 4096, 4096, 4096, 4096, 4096, 4096,
         4096, 4096, 4096, 4096] := by
      simp [copyChunks, List.range_succ]
    rw [h]
    norm_num [List.sum_cons]

/-- Claim C9: whenever the guard expression perfStart + 10000 does not
wrap modulo 2^32 and perfStart <= perfEnd, the division branch of
getWaitFraction has divisor (perfEnd - perfStart) / 10000 at least 1, so
it never divides by zero; the no-wrap precondition is necessary: at
perfStart = 2^32 - 5000, perfEnd = 2^32 - 1 the guard passes although the
elapsed time is 4999 < 10000, and the divisor is 0 (getWaitFraction then
evaluates waitTally / 0, a division by zero in the C source). -/
theorem getWaitFraction_divisor_safe (s : GFX) (hE : s.perfEnd < M)
    (hS : s.perfStart ≤ s.perfEnd) (hnw : s.perfStart + 10000 < M)
    (hg : add32 s.perfStart 10000 < s.perfEnd) :
    1 ≤ sub32 s.perfEnd s.perfStart / 10000 ∧
    (add32 (M - 5000) 10000 < M - 1 ∧
     sub32 (M - 1) (M - 5000) = 4999 ∧
     sub32 (M - 1) (M - 5000) / 10000 = 0 ∧
     getWaitFraction ⟨M - 5000, M - 1, 7, 0, 0, false⟩ = 7 / 0) := by
  have hM : M = 4294967296 := rfl
  refine ⟨?_, by decide, by decide, by decide, by decide⟩
  simp only [add32, sub32, M] at *
  omega

/-- Witness for getWaitFraction_divisor_safe at perfStart = 0,
perfEnd = 20001. -/
theorem getWaitFraction_divisor_safe_witness :
    1 ≤ sub32 20001 0 / 10000 :=
  (getWaitFraction_divisor_safe ⟨0, 20001, 0, 0, 0, false⟩
    (by decide) (by decide) (by decide) (by decide)).1

/-- Step model for claim C10: Reach s c holds when tracker state s is
reachable from a constructed initial state (perfStart = perfEnd =
waitTally = 0) by a sequence of waitForFrame and perfData calls in which
successive hardware cycle-counter reads are nondecreasing and below 2^32
(no wraparound between or during calls); c records the last counter
read.  The provider counter reads and row-pointer tables are arbitrary. -/
inductive Reach : GFX → Nat → Prop where
  | init (s : GFX) (h1 : s.perfStart = 0) (h2 : s.perfEnd = 0)
      (h3 : s.waitTally = 0) : Reach s 0
  | stepWait (s : GFX) (c ws we fc sc : Nat) (ol nl : Nat → Nat)
      (hr : Reach s c) (h1 : c ≤ ws) (h2 : ws ≤ we) (h3 : we < M) :
      Reach (waitForFrame s ws we fc sc ol nl).1 we
  | stepPerf (s : GFX) (c : Nat) (hr : Reach s c) : Reach (perfData s).2 c

/-- Closed form of the waitForFrame state update when the counter did
not regress at either read: if no session was open one is opened at
waitStart; either way the elapsed wait is added to the tally and perfEnd
becomes waitEnd. -/
lemma waitForFrame_state_no_wrap (s : GFX) (ws we fc sc : Nat)
    (ol nl : Nat → Nat) (hnl : ¬ ws < s.perfEnd) (hwe : ¬ we < ws) :
    (waitForFrame s ws we fc sc ol nl).1 =
      if s.waitTally = 0 then
        { s with perfStart := ws, perfEnd := we,
                 waitTally := (0 + (we - ws)) % M,
                 frameStart := fc, swapStart := sc }
      else
        { s with perfEnd := we,
                 waitTally := (s.waitTally + (we - ws)) % M } := by
  show waitForFramePost (waitForFramePre s ws fc sc) ws we = _
  by_cases ht : s.waitTally = 0 <;>
    simp only [waitForFramePre, waitForFramePost, hnl, hwe, ht, ite_false,
      ite_true]

/-- The inductive invariant of the step model: the session bounds are
ordered, the tally fits in the elapsed time, and the stored perfEnd never
exceeds the last counter read. -/
lemma reach_invariant {s : GFX} {c : Nat} (h : Reach s c) :
    s.perfStart ≤ s.perfEnd ∧ s.waitTally ≤ s.perfEnd - s.perfStart ∧
    s.perfEnd ≤ c ∧ c < M := by
  have hM : M = 4294967296 := rfl
  induction h with
  | init s h1 h2 h3 =>
    refine ⟨by omega, by omega, by omega, by omega⟩
  | stepWait s c ws we fc sc ol nl hr h1 h2 h3 ih =>
    obtain ⟨i1, i2, i3, i4⟩ := ih
    have hnl : ¬ ws < s.perfEnd := by omega
    have hwe : ¬ we < ws := by omega
    rw [waitForFrame_state_no_wrap s ws we fc sc ol nl hnl hwe]
    by_cases ht : s.waitTally = 0
    · rw [if_pos ht]
      simp only [M]
      refine ⟨by omega, by omega, by omega, by omega⟩
    · rw [if_neg ht]
      simp only [M]
      refine ⟨by omega, by omega, by omega, by omega⟩
  | stepPerf s c hr ih =>
    obtain ⟨i1, i2, i3, i4⟩ := ih
    simp only [perfData]
    refine ⟨by omega, by omega, by omega, by omega⟩

/-- Claim C10: under the no-wraparound step model, every reachable
tracker state satisfies perfEnd >= perfStart and
perfEnd - perfStart >= waitTally, so neither error-logging branch of
perfData can be taken. -/
theorem reach_no_error_branch (s : GFX) (c : Nat) (h : Reach s c) :
    s.perfStart ≤ s.perfEnd ∧ s.waitTally ≤ s.perfEnd - s.perfStart ∧
    perfDataLogsError s = false := by
  obtain ⟨i1, i2, _, _⟩ := reach_invariant h
  refine ⟨i1, i2, ?_⟩
  unfold perfDataLogsError
  rw [if_neg (by omega), if_neg (by omega)]

/-- Witness for reach_no_error_branch: the constructed initial state
after one waitForFrame step with counter reads 3 and 10. -/
theorem reach_no_error_branch_witness :
    (waitForFrame (initGFX 0 0) 3 10 1 2 id id).1.perfStart ≤
      (waitForFrame (initGFX 0 0) 3 10 1 2 id id).1.perfEnd ∧
    (waitForFrame (initGFX 0 0) 3 10 1 2 id id).1.waitTally ≤
      (waitForFrame (initGFX 0 0) 3 10 1 2 id id).1.perfEnd -
        (waitForFrame (initGFX 0 0) 3 10 1 2 id id).1.perfStart ∧
    perfDataLogsError (waitForFrame (initGFX 0 0) 3 10 1 2 id id).1 = false :=
  reach_no_error_branch (waitForFrame (initGFX 0 0) 3 10 1 2 id id).1 10
    (Reach.stepWait (initGFX 0 0) 0 3 10 1 2 id id
      (Reach.init (initGFX 0 0) rfl rfl rfl) (by decide) (by decide) (by decide))
